import Mathlib

/-!
Shallow embedding of the grid-container placement and addressing subsystem of
the rspace-client library (`rspace_client/inv/inv.py`) together with the
export-job polling loop of `rspace_client/eln/eln.py`.

Python dicts are modelled as records of `Option`-valued fields (a `none` field
is an absent key, so reading it raises `KeyError`); fallible Python code is
modelled in `Except String`; Python `int` is modelled as `Int`.
-/

namespace RSpace

/-- `FillingStrategy` enum: strategy for filling grid containers. -/
inductive FillingStrategy
  | BY_ROW
  | BY_COLUMN
  | EXACT
deriving DecidableEq, Repr

/-- Reading a key from a Python dict: `none` means the key is absent and the
access raises `KeyError`. -/
def dget (o : Option α) (key : String) : Except String α :=
  match o with
  | some v => Except.ok v
  | none => Except.error ("KeyError: " ++ key)

/--
`_calculate_start_index(col_start, row_start, total_columns, total_rows,
filling_strategy)` from `inv.py`:
validates that the start position is ≥ 1 and fits in the grid, then computes a
1-based linear index by fill order and returns it minus 1.
-/
def _calculate_start_index (col_start row_start total_columns total_rows : Int)
    (filling_strategy : FillingStrategy) : Except String Int :=
  if col_start < 1 ∨ row_start < 1 then
    Except.error "Columns and row starting position must be >= 1"
  else if col_start > total_columns ∨ row_start > total_rows then
    Except.error "Columns and row starting position must fit in grid"
  else
    let index : Int :=
      match filling_strategy with
      | FillingStrategy.BY_ROW => (row_start - 1) * total_columns + col_start
      | FillingStrategy.BY_COLUMN => (col_start - 1) * total_rows + row_start
      | FillingStrategy.EXACT => 0
    Except.ok (index - 1)

/-- C2 -- For all inputs satisfying the preconditions, `_calculate_start_index`
returns `(row_start-1)*total_columns + col_start - 1` under `BY_ROW` and
`(col_start-1)*total_rows + row_start - 1` under `BY_COLUMN`; and the five
concrete examples from the spec evaluate as stated. -/
theorem calculate_start_index_formula :
    (∀ c r tc tr : Int, 1 ≤ c → c ≤ tc → 1 ≤ r → r ≤ tr →
      _calculate_start_index c r tc tr FillingStrategy.BY_ROW
        = Except.ok ((r - 1) * tc + c - 1) ∧
      _calculate_start_index c r tc tr FillingStrategy.BY_COLUMN
        = Except.ok ((c - 1) * tr + r - 1)) ∧
    _calculate_start_index 3 2 5 4 FillingStrategy.BY_ROW = Except.ok 7 ∧
    _calculate_start_index 3 2 5 4 FillingStrategy.BY_COLUMN = Except.ok 9 ∧
    _calculate_start_index 1 1 5 4 FillingStrategy.BY_COLUMN = Except.ok 0 ∧
    _calculate_start_index 5 4 5 4 FillingStrategy.BY_COLUMN = Except.ok 19 ∧
    _calculate_start_index 5 4 5 4 FillingStrategy.BY_ROW = Except.ok 19 := by
  refine ⟨fun c r tc tr hc hctc hr hrtr => ?_, by rfl, by rfl, by rfl, by rfl, by rfl⟩
  have h1 : ¬(c < 1 ∨ r < 1) := by omega
  have h2 : ¬(c > tc ∨ r > tr) := by omega
  constructor <;> simp [_calculate_start_index, h1, h2]

/-- Witness for `calculate_start_index_formula` at (3, 2, 5, 4). -/
theorem calculate_start_index_formula_witness :
    _calculate_start_index 3 2 5 4 FillingStrategy.BY_ROW = Except.ok ((2 - 1) * 5 + 3 - 1) ∧
    _calculate_start_index 3 2 5 4 FillingStrategy.BY_COLUMN = Except.ok ((3 - 1) * 4 + 2 - 1) :=
  calculate_start_index_formula.1 3 2 5 4 (by norm_num) (by norm_num) (by norm_num) (by norm_num)

/-- C3 -- For both auto-fit strategies, `_calculate_start_index` raises exactly
when `col_start < 1 ∨ row_start < 1 ∨ col_start > total_columns ∨
row_start > total_rows`, and returns normally otherwise. -/
theorem calculate_start_index_error_iff
    (c r tc tr : Int) (fs : FillingStrategy)
    (hfs : fs = FillingStrategy.BY_ROW ∨ fs = FillingStrategy.BY_COLUMN) :
    (∃ msg, _calculate_start_index c r tc tr fs = Except.error msg) ↔
      (c < 1 ∨ r < 1 ∨ c > tc ∨ r > tr) := by
  clear hfs
  unfold _calculate_start_index
  by_cases h1 : c < 1 ∨ r < 1
  · simp [h1]
    omega
  · by_cases h2 : c > tc ∨ r > tr
    · simp [h1, h2]
    · simp [h1, h2]

/-- Witness for `calculate_start_index_error_iff`: at (0, 1, 5, 4, BY_ROW) the
precondition is violated and an error is raised. -/
theorem calculate_start_index_error_iff_witness :
    ∃ msg, _calculate_start_index 0 1 5 4 FillingStrategy.BY_ROW = Except.error msg :=
  (calculate_start_index_error_iff 0 1 5 4 FillingStrategy.BY_ROW (Or.inl rfl)).2
    (by norm_num)

/-- `gridLayout` sub-dict of a container snapshot. -/
structure GridLayout where
  rowsNumber : Int
  columnsNumber : Int
deriving DecidableEq, Repr

/-- One entry of the `locations` list of a container snapshot. -/
structure LocationData where
  coordX : Int
  coordY : Int
deriving DecidableEq, Repr

/-- The container JSON dict, restricted to the keys the client code reads or
the documented wire format carries. A `none` field is an absent key. -/
structure ContainerData where
  cType : Option String
  id : Option Int
  globalId : Option String
  canStoreSamples : Option Bool
  canStoreContainers : Option Bool
  canStoreSubsamples : Option Bool
  gridLayout : Option GridLayout
  locations : Option (List LocationData)
deriving DecidableEq, Repr

/-- `Container.accept_subsamples`: `return self.data["canStoreSamples"] == True`.
Note the key read is `canStoreSamples`, not `canStoreSubsamples`. -/
def accept_subsamples (d : ContainerData) : Except String Bool := do
  let b ← dget d.canStoreSamples "canStoreSamples"
  pure (b == true)

/-- `Container.accept_containers`: `return self.data["canStoreContainers"] == True`. -/
def accept_containers (d : ContainerData) : Except String Bool := do
  let b ← dget d.canStoreContainers "canStoreContainers"
  pure (b == true)

/-- `GridContainer.row_count`: `self.data["gridLayout"]["rowsNumber"]`. -/
def row_count (d : ContainerData) : Except String Int := do
  let gl ← dget d.gridLayout "gridLayout"
  pure gl.rowsNumber

/-- `GridContainer.column_count`: `self.data["gridLayout"]["columnsNumber"]`. -/
def column_count (d : ContainerData) : Except String Int := do
  let gl ← dget d.gridLayout "gridLayout"
  pure gl.columnsNumber

/-- `GridContainer.capacity`: product of row and column counts. -/
def capacity (d : ContainerData) : Except String Int := do
  let r ← row_count d
  let c ← column_count d
  pure (r * c)

/-- `GridContainer.in_use`: `len(self.data["locations"])`. -/
def in_use (d : ContainerData) : Except String Int := do
  let locs ← dget d.locations "locations"
  pure (locs.length : Int)

/-- `GridContainer.free`: `self.capacity() - self.in_use()`. -/
def free (d : ContainerData) : Except String Int := do
  let cap ← capacity d
  let u ← in_use d
  pure (cap - u)

/-- `GridContainer.used_locations`: `(item["coordX"], item["coordY"])` for each
entry of the `locations` list. -/
def used_locations (d : ContainerData) : Except String (List (Int × Int)) := do
  let locs ← dget d.locations "locations"
  pure (locs.map fun item => (item.coordX, item.coordY))

/-- `GridContainer.free_locations`: nested loops, outer over columns
`1..column_count`, inner over rows `1..row_count`, appending each cell not in
`used_locations()`. -/
def free_locations (d : ContainerData) : Except String (List (Int × Int)) := do
  let used ← used_locations d
  let cc ← column_count d
  let rc ← row_count d
  pure ((List.range cc.toNat).flatMap fun (ci : Nat) =>
    (List.range rc.toNat).filterMap fun (ri : Nat) =>
      if ((ci : Int) + 1, (ri : Int) + 1) ∈ used then none
      else some ((ci : Int) + 1, (ri : Int) + 1))

/-- The full coordinate grid in column-major nested order: outer loop over
columns `1..cols`, inner loop over rows `1..rows`. -/
def colMajorCells (cols rows : Int) : List (Int × Int) :=
  (List.range cols.toNat).flatMap fun (ci : Nat) =>
    (List.range rows.toNat).map fun (ri : Nat) => ((ci : Int) + 1, (ri : Int) + 1)

lemma filterMap_if_not_mem {α : Type} (f : Nat → α) (u : List α)
    [DecidablePred fun a : α => a ∈ u] (l : List Nat) :
    (l.filterMap fun n => if f n ∈ u then none else some (f n))
      = (l.map f).filter (fun a => decide (a ∉ u)) := by
  induction l with
  | nil => rfl
  | cons n t ih =>
    by_cases h : f n ∈ u <;> simp [h, ih]

/-- A cell belongs to the column-major enumeration of the grid exactly when
its coordinates lie within the grid bounds. -/
lemma mem_colMajorCells (cols rows c r : Int) :
    (c, r) ∈ colMajorCells cols rows ↔ 1 ≤ c ∧ c ≤ cols ∧ 1 ≤ r ∧ r ≤ rows := by
  unfold colMajorCells
  constructor
  · intro h
    obtain ⟨ci, hci, h2⟩ := List.mem_flatMap.mp h
    obtain ⟨ri, hri, heq⟩ := List.mem_map.mp h2
    have hci2 := List.mem_range.mp hci
    have hri2 := List.mem_range.mp hri
    have hc : (ci : Int) + 1 = c := congrArg Prod.fst heq
    have hr : (ri : Int) + 1 = r := congrArg Prod.snd heq
    omega
  · rintro ⟨h1, h2, h3, h4⟩
    refine List.mem_flatMap.mpr ⟨(c - 1).toNat, List.mem_range.mpr (by omega), ?_⟩
    refine List.mem_map.mpr ⟨(r - 1).toNat, List.mem_range.mpr (by omega), ?_⟩
    have hc : ((c - 1).toNat : Int) + 1 = c := by omega
    have hr : ((r - 1).toNat : Int) + 1 = r := by omega
    rw [hc, hr]

/-- C5 -- For every grid container snapshot, `free_locations` returns exactly
the cells of the rows×columns grid that do not occur in `used_locations`,
enumerated in column-major nested order, and each in-grid cell lies in
`free_locations` exactly when it does not lie in `used_locations`. -/
theorem free_locations_partition (d : ContainerData) (gl : GridLayout)
    (locs : List LocationData)
    (hgl : d.gridLayout = some gl) (hlocs : d.locations = some locs) :
    free_locations d
      = Except.ok ((colMajorCells gl.columnsNumber gl.rowsNumber).filter
          (fun cell => decide (cell ∉ locs.map fun item => (item.coordX, item.coordY)))) ∧
    (∀ c r : Int, 1 ≤ c → c ≤ gl.columnsNumber → 1 ≤ r → r ≤ gl.rowsNumber →
      ∀ fl ul, free_locations d = Except.ok fl → used_locations d = Except.ok ul →
        ((c, r) ∈ fl ↔ (c, r) ∉ ul)) := by
  have hused : used_locations d
      = Except.ok (locs.map fun item => (item.coordX, item.coordY)) := by
    unfold used_locations dget
    rw [hlocs]
    rfl
  have hcc : column_count d = Except.ok gl.columnsNumber := by
    unfold column_count dget
    rw [hgl]
    rfl
  have hrc : row_count d = Except.ok gl.rowsNumber := by
    unfold row_count dget
    rw [hgl]
    rfl
  have hfree : free_locations d
      = Except.ok ((List.range gl.columnsNumber.toNat).flatMap fun (ci : Nat) =>
          (List.range gl.rowsNumber.toNat).filterMap fun (ri : Nat) =>
            if ((ci : Int) + 1, (ri : Int) + 1)
                ∈ (locs.map fun item => (item.coordX, item.coordY)) then none
            else some ((ci : Int) + 1, (ri : Int) + 1)) := by
    unfold free_locations
    rw [hused, hcc, hrc]
    rfl
  have hfilter :
      ((List.range gl.columnsNumber.toNat).flatMap fun (ci : Nat) =>
        (List.range gl.rowsNumber.toNat).filterMap fun (ri : Nat) =>
          if ((ci : Int) + 1, (ri : Int) + 1)
              ∈ (locs.map fun item => (item.coordX, item.coordY)) then none
          else some ((ci : Int) + 1, (ri : Int) + 1))
      = (colMajorCells gl.columnsNumber gl.rowsNumber).filter
          (fun cell => decide (cell ∉ locs.map fun item => (item.coordX, item.coordY))) := by
    rw [colMajorCells, List.filter_flatMap]
    exact congrArg _ (funext fun ci => filterMap_if_not_mem _ _ _)
  refine ⟨hfree.trans (congrArg Except.ok hfilter), ?_⟩
  intro c r hc1 hc2 hr1 hr2 fl ul hfl hul
  have hfl2 : fl = (colMajorCells gl.columnsNumber gl.rowsNumber).filter
      (fun cell => decide (cell ∉ locs.map fun item => (item.coordX, item.coordY))) :=
    Except.ok.inj (hfl.symm.trans (hfree.trans (congrArg Except.ok hfilter)))
  have hul2 : ul = locs.map fun item => (item.coordX, item.coordY) :=
    Except.ok.inj (hul.symm.trans hused)
  subst hfl2
  subst hul2
  rw [List.mem_filter]
  simp only [decide_eq_true_eq]
  constructor
  · exact fun h => h.2
  · intro h
    exact ⟨(mem_colMajorCells _ _ c r).mpr ⟨hc1, hc2, hr1, hr2⟩, h⟩

/-- Witness for `free_locations_partition` on a 3-row, 2-column snapshot with
one occupied cell at (2, 1). -/
theorem free_locations_partition_witness :
    free_locations (ContainerData.mk (some "GRID") (some 1) (some "IC1") none
        (some true) (some true) (some (GridLayout.mk 3 2)) (some [LocationData.mk 2 1]))
      = Except.ok ((colMajorCells 2 3).filter
          (fun cell => decide
            (cell ∉ [LocationData.mk 2 1].map fun item => (item.coordX, item.coordY)))) :=
  (free_locations_partition _ (GridLayout.mk 3 2) [LocationData.mk 2 1] rfl rfl).1

/-- C7 -- For every grid container snapshot, `capacity` is rows×columns,
`in_use` is the length of the `locations` list, `free` is their difference;
and on the 3-row, 2-column snapshot with one occupied cell at (2, 1):
`capacity = 6`, `free = 5`, `in_use = 1`, and (2, 1) is a used location. -/
theorem grid_container_counts :
    (∀ (d : ContainerData) (gl : GridLayout) (locs : List LocationData),
      d.gridLayout = some gl → d.locations = some locs →
      capacity d = Except.ok (gl.rowsNumber * gl.columnsNumber) ∧
      in_use d = Except.ok (locs.length : Int) ∧
      free d = Except.ok (gl.rowsNumber * gl.columnsNumber - (locs.length : Int))) ∧
    capacity (ContainerData.mk (some "GRID") (some 1) (some "IC1") none
        (some true) (some true) (some (GridLayout.mk 3 2)) (some [LocationData.mk 2 1]))
      = Except.ok 6 ∧
    free (ContainerData.mk (some "GRID") (some 1) (some "IC1") none
        (some true) (some true) (some (GridLayout.mk 3 2)) (some [LocationData.mk 2 1]))
      = Except.ok 5 ∧
    in_use (ContainerData.mk (some "GRID") (some 1) (some "IC1") none
        (some true) (some true) (some (GridLayout.mk 3 2)) (some [LocationData.mk 2 1]))
      = Except.ok 1 ∧
    used_locations (ContainerData.mk (some "GRID") (some 1) (some "IC1") none
        (some true) (some true) (some (GridLayout.mk 3 2)) (some [LocationData.mk 2 1]))
      = Except.ok [(2, 1)] := by
  refine ⟨?_, by rfl, by rfl, by rfl, by rfl⟩
  intro d gl locs hgl hlocs
  have hrc : row_count d = Except.ok gl.rowsNumber := by
    unfold row_count dget
    rw [hgl]
    rfl
  have hcc : column_count d = Except.ok gl.columnsNumber := by
    unfold column_count dget
    rw [hgl]
    rfl
  have hcap : capacity d = Except.ok (gl.rowsNumber * gl.columnsNumber) := by
    unfold capacity
    rw [hrc, hcc]
    rfl
  have hin : in_use d = Except.ok (locs.length : Int) := by
    unfold in_use dget
    rw [hlocs]
    rfl
  refine ⟨hcap, hin, ?_⟩
  unfold free
  rw [hcap, hin]
  rfl

/-- Witness for `grid_container_counts` on the 3-row, 2-column snapshot. -/
theorem grid_container_counts_witness :
    capacity (ContainerData.mk (some "GRID") (some 1) (some "IC1") none
        (some true) (some true) (some (GridLayout.mk 3 2)) (some [LocationData.mk 2 1]))
      = Except.ok ((GridLayout.mk 3 2).rowsNumber * (GridLayout.mk 3 2).columnsNumber) :=
  (grid_container_counts.1 _ (GridLayout.mk 3 2) [LocationData.mk 2 1] rfl rfl).1

/-- C8 -- `accept_subsamples` reads the key `canStoreSamples`, which the
documented wire format does not carry: on a snapshot conforming to the
documented format (carrying `canStoreContainers` and `canStoreSubsamples`)
it raises `KeyError` even though `canStoreSubsamples` is present and true,
while `accept_containers` reads `canStoreContainers` as documented. -/
theorem accept_subsamples_key_error :
    accept_subsamples (ContainerData.mk (some "GRID") (some 1) (some "IC1") none
        (some true) (some true) (some (GridLayout.mk 4 4)) (some []))
      = Except.error "KeyError: canStoreSamples" ∧
    (ContainerData.mk (some "GRID") (some 1) (some "IC1") none
        (some true) (some true) (some (GridLayout.mk 4 4)) (some [])).canStoreSubsamples
      = some true ∧
    accept_containers (ContainerData.mk (some "GRID") (some 1) (some "IC1") none
        (some true) (some true) (some (GridLayout.mk 4 4)) (some []))
      = Except.ok true :=
  ⟨rfl, rfl, rfl⟩

/-- The test `re.match(Id.Pattern, value)` in `Id.__init__` — the pattern
(two optional uppercase letters, then digits) is anchored at the start only:
the string must begin with two uppercase letters followed by a digit, or
begin with a digit. -/
def matchesIdPattern (s : String) : Bool :=
  match s.toList with
  | c0 :: c1 :: c2 :: _ => (c0.isUpper && c1.isUpper && c2.isDigit) || c0.isDigit
  | c0 :: _ => c0.isDigit
  | [] => false

/-- Numeric value of a digit string. -/
def digitsVal (cs : List Char) : Nat :=
  cs.foldl (fun a c => a * 10 + (c.toNat - 48)) 0

/-- Python `int(s)` as reached from `Id.__init__`: every argument passed to
`int` there begins with a digit (guaranteed by the pattern test), so the model
accepts exactly nonempty all-digit strings and raises `ValueError` otherwise
(as `int` does on trailing non-digit characters). -/
def pyInt (s : String) : Except String Int :=
  if s.toList ≠ [] ∧ s.toList.all Char.isDigit then Except.ok (digitsVal s.toList)
  else Except.error "ValueError: invalid literal for int"

/-- `Id`: numeric id plus optional two-letter type code. `pfx` models the
Python attribute that is set only when the type code is known (`none` models
the attribute being absent, i.e. `hasattr` returning false). -/
structure Id where
  id : Int
  pfx : Option String
deriving DecidableEq, Repr

/-- The heterogeneous inputs `Id.__init__` accepts: int, str, dict (with
optional `id` and `globalId` keys), or a `Container` object wrapping its
snapshot dict. -/
inductive IdValue
  | IVInt (n : Int)
  | IVStr (s : String)
  | IVDict (oid : Option Int) (oglobalId : Option String)
  | IVContainer (d : ContainerData)
deriving DecidableEq, Repr

/-- `Id.__init__`: strings are validated against the global-id pattern and
split into type code and numeric part when the first two characters are
alphabetic; `Container` objects get code `IC` and the snapshot's `id`; dicts
need an `id` key and take their code from `globalId[0:2]` when present;
plain ints carry no type code. -/
def idOfValue : IdValue → Except String Id
  | IdValue.IVStr s =>
      if matchesIdPattern s = false then Except.error "incorrect global id format"
      else if s.length > 2 ∧ (s.toList.take 2).all Char.isAlpha then
        match pyInt (String.mk (s.toList.drop 2)) with
        | Except.error e => Except.error e
        | Except.ok n => Except.ok (Id.mk n (some (String.mk (s.toList.take 2))))
      else
        match pyInt s with
        | Except.error e => Except.error e
        | Except.ok n => Except.ok (Id.mk n none)
  | IdValue.IVContainer d =>
      match dget d.id "id" with
      | Except.error e => Except.error e
      | Except.ok i => Except.ok (Id.mk i (some "IC"))
  | IdValue.IVDict oid og =>
      match oid with
      | none => Except.error "Could not interpret dict as an identifiable Inventory item."
      | some i =>
          match og with
          | some g => Except.ok (Id.mk i (some (String.mk (g.toList.take 2))))
          | none => Except.ok (Id.mk i none)
  | IdValue.IVInt n => Except.ok (Id.mk n none)

/-- `Id._check(prefix, maybe)`: in maybe-mode an id with no type code passes;
in strict mode the code must be present and equal. -/
def idCheck (i : Id) (p : String) (maybe : Bool) : Bool :=
  if maybe then i.pfx.isNone || i.pfx == some p
  else i.pfx == some p

/-- `Id.is_container(maybe)`. -/
def is_container (i : Id) (maybe : Bool) : Bool := idCheck i "IC" maybe

/-- `Id.is_subsample(maybe)`. -/
def is_subsample (i : Id) (maybe : Bool) : Bool := idCheck i "SS" maybe

/-- `Id.is_movable(maybe)`: subsample or container. -/
def is_movable (i : Id) (maybe : Bool) : Bool :=
  is_subsample i maybe || is_container i maybe

/-- `Id.get_type`: `PREFIX_TO_TYPE[self.prefix]`, raising `KeyError` when the
type code is unknown or absent. -/
def get_type (i : Id) : Except String String :=
  match i.pfx with
  | some "IC" => Except.ok "CONTAINER"
  | some "SS" => Except.ok "SUBSAMPLE"
  | some "SA" => Except.ok "SAMPLE"
  | some "IT" => Except.ok "TEMPLATE"
  | _ => Except.error "KeyError: PREFIX_TO_TYPE"

/-- `GridLocation`: validated 1-based column (x) and row (y) indices. -/
structure GridLocation where
  x : Int
  y : Int
deriving DecidableEq, Repr

/-- `GridLocation.__init__`. -/
def gridLocationInit (x y : Int) : Except String GridLocation :=
  if x < 1 ∨ y < 1 then Except.error "Grid location coordinates must be >= 1"
  else Except.ok (GridLocation.mk x y)

/-- A constructed grid placement: the `AutoFit` subclasses carry the start
position, total dimensions and a filling strategy; `ByLocation` carries
explicit locations (its filling strategy is `EXACT`). -/
inductive GridPlacement
  | autoFit (column_index row_index total_columns total_rows : Int)
      (items_to_move : List Id) (filling_strategy : FillingStrategy)
  | byLocation (locations : List GridLocation) (items_to_move : List Id)
deriving DecidableEq, Repr

/-- The `items_to_move` attribute of a placement. -/
def GridPlacement.items : GridPlacement → List Id
  | GridPlacement.autoFit _ _ _ _ items _ => items
  | GridPlacement.byLocation _ items => items

/-- `GridPlacement.__init__` loop: each raw item is parsed by `Id(...)` and
must satisfy `is_movable()` — strict mode, since the `maybe` argument defaults
to false. -/
def gridPlacementItems : List IdValue → Except String (List Id)
  | [] => Except.ok []
  | v :: rest =>
      match idOfValue v with
      | Except.error e => Except.error e
      | Except.ok toMove =>
          if is_movable toMove false then
            match gridPlacementItems rest with
            | Except.error e => Except.error e
            | Except.ok ids => Except.ok (toMove :: ids)
          else Except.error "not a movable type"

/-- `AutoFit.__init__`: requires a nonempty item list, all four indices ≥ 1
and the start position within the total dimensions, then runs the superclass
item validation. -/
def autoFitInit (column_index row_index total_columns total_rows : Int)
    (items : List IdValue) (filling_strategy : FillingStrategy) :
    Except String GridPlacement :=
  if items.length = 0 then Except.error "Provide at least one item to move"
  else if row_index < 1 ∨ column_index < 1 ∨ total_columns < 1 ∨ total_rows < 1 then
    Except.error "All row/column indices must be >= 1"
  else if column_index > total_columns ∨ row_index > total_rows then
    Except.error "Column and row indexes must fit in dimensions"
  else
    match gridPlacementItems items with
    | Except.error e => Except.error e
    | Except.ok ids =>
        Except.ok (GridPlacement.autoFit column_index row_index total_columns
          total_rows ids filling_strategy)

/-- `ByRow.__init__`. -/
def byRowInit (column_index row_index total_columns total_rows : Int)
    (items : List IdValue) : Except String GridPlacement :=
  autoFitInit column_index row_index total_columns total_rows items
    FillingStrategy.BY_ROW

/-- `ByColumn.__init__`. -/
def byColumnInit (column_index row_index total_columns total_rows : Int)
    (items : List IdValue) : Except String GridPlacement :=
  autoFitInit column_index row_index total_columns total_rows items
    FillingStrategy.BY_COLUMN

/-- `ByLocation.__init__`: the locations list must have the same length as the
items list; there is no emptiness check of its own. -/
def byLocationInit (locations : List GridLocation) (items : List IdValue) :
    Except String GridPlacement :=
  if locations.length ≠ items.length then
    Except.error "locations list is not the same length as items list"
  else
    match gridPlacementItems items with
    | Except.error e => Except.error e
    | Except.ok ids => Except.ok (GridPlacement.byLocation locations ids)

lemma is_movable_false_iff (i : Id) :
    is_movable i false = true ↔ (i.pfx = some "IC" ∨ i.pfx = some "SS") := by
  unfold is_movable is_subsample is_container idCheck
  cases h : i.pfx with
  | none => simp
  | some s => simp [h]; tauto

/-- Items accepted by the superclass validation all carry code IC or SS. -/
lemma gridPlacementItems_ok_movable :
    ∀ (items : List IdValue) (ids : List Id),
      gridPlacementItems items = Except.ok ids →
      ∀ v ∈ items, ∃ i, idOfValue v = Except.ok i ∧
        (i.pfx = some "IC" ∨ i.pfx = some "SS") := by
  intro items
  induction items with
  | nil =>
    intro ids h v hv
    cases hv
  | cons w rest ih =>
    intro ids h v hv
    rw [gridPlacementItems] at h
    split at h
    · cases h
    · rename_i i hw
      split at h
      · rename_i hm
        split at h
        · cases h
        · rename_i ids2 hrest
          rcases List.mem_cons.mp hv with hveq | hvmem
          · subst hveq
            exact ⟨i, hw, (is_movable_false_iff i).mp hm⟩
          · exact ih ids2 hrest v hvmem
      · cases h

/-- C6 (counterexample) -- `ByLocation` constructed with an empty locations
list and an empty items list does NOT raise: the length check passes (0 = 0)
and there is no emptiness check, so construction succeeds, refuting the claim
that every placement variant rejects an empty items list. -/
theorem byLocation_empty_ok :
    byLocationInit [] [] = Except.ok (GridPlacement.byLocation [] []) := rfl

/-- C6 (amended) -- The `AutoFit` variants (`ByRow`, `ByColumn`) reject an
empty items list; `ByLocation` rejects exactly a length mismatch between
locations and items, and (given items that pass the movability validation)
succeeds exactly when the lengths agree — including both lists empty. -/
theorem placement_length_validation :
    (∀ (c r tc tr : Int) (fs : FillingStrategy),
      autoFitInit c r tc tr [] fs
        = Except.error "Provide at least one item to move") ∧
    (∀ c r tc tr : Int,
      byRowInit c r tc tr [] = Except.error "Provide at least one item to move") ∧
    (∀ c r tc tr : Int,
      byColumnInit c r tc tr [] = Except.error "Provide at least one item to move") ∧
    (∀ (locs : List GridLocation) (items : List IdValue),
      locs.length ≠ items.length →
      byLocationInit locs items
        = Except.error "locations list is not the same length as items list") ∧
    (∀ (locs : List GridLocation) (items : List IdValue) (ids : List Id),
      gridPlacementItems items = Except.ok ids →
      ((byLocationInit locs items).isOk = true ↔ locs.length = items.length)) := by
  refine ⟨fun c r tc tr fs => rfl, fun c r tc tr => rfl, fun c r tc tr => rfl,
    ?_, ?_⟩
  · intro locs items hne
    unfold byLocationInit
    rw [if_pos hne]
  · intro locs items ids hids
    unfold byLocationInit
    by_cases hlen : locs.length = items.length
    · rw [if_neg (by omega), hids]
      simp [Except.isOk, Except.toBool, hlen]
    · rw [if_pos hlen]
      simp [Except.isOk, Except.toBool, hlen]

/-- Witness for `placement_length_validation`: a mismatch errors, and with one
movable item and one location construction succeeds. -/
theorem placement_length_validation_witness :
    byLocationInit [] [IdValue.IVStr "SS5"]
      = Except.error "locations list is not the same length as items list" ∧
    ((byLocationInit [GridLocation.mk 1 1] [IdValue.IVStr "SS5"]).isOk = true ↔
      ([GridLocation.mk 1 1] : List GridLocation).length
        = ([IdValue.IVStr "SS5"] : List IdValue).length) :=
  ⟨placement_length_validation.2.2.2.1 [] [IdValue.IVStr "SS5"] (by decide),
   placement_length_validation.2.2.2.2 [GridLocation.mk 1 1] [IdValue.IVStr "SS5"]
     [Id.mk 5 (some "SS")] (by rfl)⟩

/-- C10 -- Placement items are checked with `is_movable()` in strict mode:
whenever the superclass validation succeeds, every item parsed to an `Id`
whose type code is definitively IC or SS; an item resolving to an id with no
type code (bare int, digits-only string, dict without globalId) makes
validation — and hence every placement constructor — fail; and both
constructors succeed only through the superclass validation. -/
theorem placement_strict_movability :
    (∀ (items : List IdValue) (ids : List Id),
      gridPlacementItems items = Except.ok ids →
      ∀ v ∈ items, ∃ i, idOfValue v = Except.ok i ∧
        (i.pfx = some "IC" ∨ i.pfx = some "SS")) ∧
    (∀ (items : List IdValue) (v : IdValue), v ∈ items →
      (∀ i, idOfValue v = Except.ok i → i.pfx = none) →
      ∀ ids, gridPlacementItems items ≠ Except.ok ids) ∧
    (∀ n : Int, idOfValue (IdValue.IVInt n) = Except.ok (Id.mk n none)) ∧
    (∀ (c r tc tr : Int) (fs : FillingStrategy) (items : List IdValue)
        (gp : GridPlacement),
      autoFitInit c r tc tr items fs = Except.ok gp →
      ∃ ids, gridPlacementItems items = Except.ok ids) ∧
    (∀ (locs : List GridLocation) (items : List IdValue) (gp : GridPlacement),
      byLocationInit locs items = Except.ok gp →
      ∃ ids, gridPlacementItems items = Except.ok ids) := by
  refine ⟨gridPlacementItems_ok_movable, ?_, fun n => rfl, ?_, ?_⟩
  · intro items v hv hnone ids hok
    obtain ⟨i, hi, hpfx⟩ := gridPlacementItems_ok_movable items ids hok v hv
    have := hnone i hi
    rcases hpfx with h | h <;> rw [this] at h <;> cases h
  · intro c r tc tr fs items gp h
    unfold autoFitInit at h
    split at h
    · cases h
    · split at h
      · cases h
      · split at h
        · cases h
        · split at h
          · cases h
          · rename_i ids hids
            exact ⟨ids, hids⟩
  · intro locs items gp h
    unfold byLocationInit at h
    split at h
    · cases h
    · split at h
      · cases h
      · rename_i ids hids
        exact ⟨ids, hids⟩

/-- Witness for `placement_strict_movability`: a bare integer id resolves with
no type code, so a placement over it is never constructed. -/
theorem placement_strict_movability_witness :
    ∀ ids, gridPlacementItems [IdValue.IVInt 5] ≠ Except.ok ids :=
  placement_strict_movability.2.1 [IdValue.IVInt 5] (IdValue.IVInt 5)
    (List.mem_singleton.mpr rfl)
    (fun i hi => by
      have : i = Id.mk 5 none := (Except.ok.inj hi.symm)
      rw [this])

/-- `⌊log2 n⌋` by fuel-bounded halving (`n` halvings always suffice); written
this way so that it evaluates by kernel reduction. -/
def log2fuel : Nat → Nat → Nat
  | 0, _ => 0
  | fuel + 1, n => if 2 ≤ n then log2fuel fuel (n / 2) + 1 else 0

/-- `⌊log2 n⌋` for `n ≥ 1`. -/
def floorLog2 (n : Nat) : Nat := log2fuel n n

/-- Whether `2^e ≤ a / b` as rationals (`a`, `b` positive). -/
def qGe (a b : Nat) (e : Int) : Bool :=
  if 0 ≤ e then decide (b * 2 ^ e.toNat ≤ a) else decide (b ≤ a * 2 ^ (-e).toNat)

/-- The binade of the rational `a / b`: the unique `e` with
`2^e ≤ a/b < 2^(e+1)` (`a`, `b` positive). -/
def epow (a b : Nat) : Int :=
  if qGe a b ((floorLog2 a : Int) - (floorLog2 b : Int)) then
    (floorLog2 a : Int) - (floorLog2 b : Int)
  else (floorLog2 a : Int) - (floorLog2 b : Int) - 1

/-- Round `num / den` to the nearest integer, ties to even. -/
def roundHalfEven (num den : Nat) : Nat :=
  if 2 * (num % den) < den then num / den
  else if den < 2 * (num % den) then num / den + 1
  else if num / den % 2 = 0 then num / den else num / den + 1

/-- `int(a / b)` for nonnegative ints as CPython computes it: `a / b` is the
IEEE-754 double nearest to the rational `a/b` (rounded to 53 significant bits
at the quotient's binade, ties to even), and `int` then truncates it. The
model covers quotients in the normal finite double range; the far regimes
(overflow past 2^1024, where Python raises `OverflowError`, and subnormals)
are outside every use in this development. -/
def pyIntDivNat (a b : Nat) : Nat :=
  if a = 0 then 0
  else if 52 ≤ epow a b then
    roundHalfEven a (b * 2 ^ (epow a b - 52).toNat) * 2 ^ (epow a b - 52).toNat
  else
    roundHalfEven (a * 2 ^ (52 - epow a b).toNat) b / 2 ^ (52 - epow a b).toNat

/-- `int(a / b)` for ints (`b ≠ 0`): float division commutes with negation
and `int` truncates toward zero, so signs factor out. -/
def pyIntDiv (a b : Int) : Int :=
  if (0 ≤ a ∧ 0 ≤ b) ∨ (a < 0 ∧ b < 0) then (pyIntDivNat a.natAbs b.natAbs : Int)
  else -(pyIntDivNat a.natAbs b.natAbs : Int)

lemma log2fuel_spec : ∀ (fuel n : Nat), 1 ≤ n → n ≤ fuel →
    2 ^ log2fuel fuel n ≤ n ∧ n < 2 ^ (log2fuel fuel n + 1) := by
  intro fuel
  induction fuel with
  | zero =>
    intro n h1 h2
    exact absurd (le_trans h1 h2) (by norm_num)
  | succ f ih =>
    intro n h1 h2
    rw [log2fuel]
    by_cases h : 2 ≤ n
    · rw [if_pos h]
      obtain ⟨hl, hr⟩ := ih (n / 2) (by omega) (by omega)
      constructor
      · rw [pow_succ]
        omega
      · rw [pow_succ]
        omega
    · rw [if_neg h]
      norm_num
      omega

lemma floorLog2_spec (n : Nat) (h : 1 ≤ n) :
    2 ^ floorLog2 n ≤ n ∧ n < 2 ^ (floorLog2 n + 1) :=
  log2fuel_spec n n h le_rfl

/-- `epow` never underestimates: `2^(epow a b) ≤ a / b`. -/
lemma epow_lower (a b : Nat) (ha : 1 ≤ a) (hb : 1 ≤ b) :
    qGe a b (epow a b) = true := by
  unfold epow
  by_cases h : qGe a b ((floorLog2 a : Int) - (floorLog2 b : Int)) = true
  · rw [if_pos h]
    exact h
  · rw [if_neg h]
    obtain ⟨hA, _⟩ := floorLog2_spec a ha
    obtain ⟨_, hB⟩ := floorLog2_spec b hb
    unfold qGe
    by_cases hs : (0 : Int) ≤ (floorLog2 a : Int) - (floorLog2 b : Int) - 1
    · rw [if_pos hs]
      apply decide_eq_true
      have hk : ((floorLog2 a : Int) - (floorLog2 b : Int) - 1).toNat
          = floorLog2 a - floorLog2 b - 1 := by omega
      rw [hk]
      have h1 : b * 2 ^ (floorLog2 a - floorLog2 b - 1)
          < 2 ^ (floorLog2 b + 1) * 2 ^ (floorLog2 a - floorLog2 b - 1) :=
        (Nat.mul_lt_mul_right (Nat.two_pow_pos _)).mpr hB
      have h2 : 2 ^ (floorLog2 b + 1) * 2 ^ (floorLog2 a - floorLog2 b - 1)
          = 2 ^ floorLog2 a := by
        rw [← pow_add]
        congr 1
        omega
      omega
    · rw [if_neg hs]
      apply decide_eq_true
      have hk : (-((floorLog2 a : Int) - (floorLog2 b : Int) - 1)).toNat
          = floorLog2 b + 1 - floorLog2 a := by omega
      rw [hk]
      have h1 : 2 ^ floorLog2 a * 2 ^ (floorLog2 b + 1 - floorLog2 a)
          ≤ a * 2 ^ (floorLog2 b + 1 - floorLog2 a) :=
        Nat.mul_le_mul_right _ hA
      have h2 : 2 ^ floorLog2 a * 2 ^ (floorLog2 b + 1 - floorLog2 a)
          = 2 ^ (floorLog2 b + 1) := by
        rw [← pow_add]
        congr 1
        omega
      omega

/-- Rounding the scaled quotient and dividing the scale back out gives the
exact floor quotient, provided `a < 2^53` and the quotient is at least
`2^52 / S`: a round-up can never cross a multiple of the scale `S`. -/
lemma roundHalfEven_div_exact (a b S : Nat) (hb : 1 ≤ b) (hS : 1 ≤ S)
    (hlow : b * 2 ^ 52 ≤ a * S) (ha : a < 2 ^ 53) :
    roundHalfEven (a * S) b / S = a / b := by
  have hF : a * S / b / S = a / b := by
    rw [Nat.div_div_eq_div_mul, Nat.mul_comm a S, Nat.mul_comm b S,
      Nat.mul_div_mul_left _ _ hS]
  have hkey : ¬ (S ∣ (a * S / b + 1) ∧ b ≤ 2 * (a * S % b)) := by
    rintro ⟨⟨N, hN⟩, hge⟩
    have hNb : a + 1 ≤ N * b := by
      have h6 : a * S < b * (a * S / b + 1) := by
        have h7 := Nat.div_add_mod (a * S) b
        have h8 : a * S % b < b := Nat.mod_lt _ hb
        have h9 : b * (a * S / b + 1) = b * (a * S / b) + b := by ring
        omega
      rw [hN] at h6
      have h10 : a * S < (N * b) * S := by
        calc a * S < b * (S * N) := h6
          _ = (N * b) * S := by ring
      have h11 : a < N * b := Nat.lt_of_mul_lt_mul_right h10
      omega
    have hbig : 2 * S ≤ b := by
      have h12 := Nat.div_add_mod (a * S) b
      have h18 : a * S % b < b := Nat.mod_lt _ hb
      have h13 : b * (a * S / b) + b = b * (S * N) := by
        rw [← hN]
        ring
      have h14 : a * S + S ≤ b * (S * N) := by
        have h15 : S * (a + 1) ≤ S * (N * b) := Nat.mul_le_mul_left S hNb
        have h16 : S * (a + 1) = a * S + S := by ring
        have h17 : S * (N * b) = b * (S * N) := by ring
        omega
      omega
    have h19 : 2 * S * 2 ^ 52 ≤ b * 2 ^ 52 := Nat.mul_le_mul_right _ hbig
    have h20 : 2 * S * 2 ^ 52 = 2 ^ 53 * S := by ring
    have h21 : 2 ^ 53 * S ≤ a * S := by omega
    have h22 : 2 ^ 53 ≤ a := Nat.le_of_mul_le_mul_right h21 hS
    omega
  unfold roundHalfEven
  by_cases h1 : 2 * (a * S % b) < b
  · rw [if_pos h1]
    exact hF
  · rw [if_neg h1]
    have hge : b ≤ 2 * (a * S % b) := by omega
    have hndvd : ¬ S ∣ (a * S / b + 1) := fun hd => hkey ⟨hd, hge⟩
    have hsucc : (a * S / b + 1) / S = a * S / b / S := by
      rw [Nat.succ_div, if_neg hndvd]
      omega
    by_cases h2 : b < 2 * (a * S % b)
    · rw [if_pos h2, hsucc]
      exact hF
    · rw [if_neg h2]
      by_cases h3 : a * S / b % 2 = 0
      · rw [if_pos h3]
        exact hF
      · rw [if_neg h3, hsucc]
        exact hF

/-- Below `2^52` the correctly-rounded float quotient truncates to the exact
floor quotient. -/
lemma pyIntDivNat_exact (a b : Nat) (hb : 1 ≤ b) (ha : a < 2 ^ 52) :
    pyIntDivNat a b = a / b := by
  by_cases ha0 : a = 0
  · subst ha0
    unfold pyIntDivNat
    rw [if_pos rfl, Nat.zero_div]
  · have ha1 : 1 ≤ a := by omega
    have hlow := epow_lower a b ha1 hb
    have he51 : epow a b ≤ 51 := by
      by_contra hcon
      push_neg at hcon
      unfold qGe at hlow
      rw [if_pos (by omega : (0 : Int) ≤ epow a b)] at hlow
      have hx : b * 2 ^ (epow a b).toNat ≤ a := of_decide_eq_true hlow
      have h2 : (2 : Nat) ^ 52 ≤ 2 ^ (epow a b).toNat :=
        Nat.pow_le_pow_right (by norm_num) (by omega)
      have h3 : 2 ^ (epow a b).toNat ≤ b * 2 ^ (epow a b).toNat :=
        Nat.le_mul_of_pos_left _ hb
      omega
    unfold pyIntDivNat
    rw [if_neg ha0, if_neg (by omega : ¬ (52 : Int) ≤ epow a b)]
    apply roundHalfEven_div_exact _ _ _ hb (Nat.two_pow_pos _)
    · unfold qGe at hlow
      by_cases hsign : (0 : Int) ≤ epow a b
      · rw [if_pos hsign] at hlow
        have h1 : b * 2 ^ (epow a b).toNat ≤ a := of_decide_eq_true hlow
        have h2 : b * 2 ^ (epow a b).toNat * 2 ^ ((52 : Int) - epow a b).toNat
            ≤ a * 2 ^ ((52 : Int) - epow a b).toNat := Nat.mul_le_mul_right _ h1
        have h3 : b * 2 ^ (epow a b).toNat * 2 ^ ((52 : Int) - epow a b).toNat
            = b * 2 ^ 52 := by
          rw [mul_assoc, ← pow_add]
          congr 2
          omega
        omega
      · rw [if_neg hsign] at hlow
        have h1 : b ≤ a * 2 ^ (-epow a b).toNat := of_decide_eq_true hlow
        have h2 : b * 2 ^ 52 ≤ a * 2 ^ (-epow a b).toNat * 2 ^ 52 :=
          Nat.mul_le_mul_right _ h1
        have h3 : a * 2 ^ (-epow a b).toNat * 2 ^ 52
            = a * 2 ^ ((52 : Int) - epow a b).toNat := by
          rw [mul_assoc, ← pow_add]
          congr 2
          omega
        omega
    · exact lt_of_lt_of_le ha (by norm_num)

/-- For nonnegative numerators below `2^52` (and positive divisors),
`int(a / b)` agrees with exact integer division. -/
lemma pyIntDiv_nonneg_eq (s t : Int) (hs : 0 ≤ s) (ht : 0 < t)
    (hbound : s < 2 ^ 52) : pyIntDiv s t = s / t := by
  unfold pyIntDiv
  rw [if_pos (Or.inl ⟨hs, le_of_lt ht⟩)]
  have hbn : s.natAbs < 2 ^ 52 := by
    have h2 : (2 : Int) ^ 52 = 4503599627370496 := by norm_num
    have h3 : (2 : Nat) ^ 52 = 4503599627370496 := by norm_num
    omega
  rw [pyIntDivNat_exact s.natAbs t.natAbs (by omega) hbn, Int.ofNat_ediv,
    Int.natAbs_of_nonneg hs, Int.natAbs_of_nonneg (le_of_lt ht)]

/-- One record of the bulk MOVE payload. -/
structure BulkRecord where
  type : String
  id : Int
  parentContainers : List Int
  parentLocation : Option (Int × Int)
deriving DecidableEq, Repr

/-- The bulk MOVE payload posted to `/bulk`. -/
structure BulkPost where
  operationType : String
  records : List BulkRecord
deriving DecidableEq, Repr

/-- The per-item x,y computation in the auto-fit loop of `_create_bulk_move`:
`x`, `y` start from the placement's start position and are overwritten for
the `BY_ROW` and `BY_COLUMN` strategies from the running counter. The source
writes `int(counter / total)` — float true division then truncation, modelled
by `pyIntDiv` — while `counter % total` is exact integer arithmetic (`Int.emod`
agrees with Python `%` for the positive divisors of every reachable call, as
`_calculate_start_index` has validated `total ≥ 1`). -/
def coordOf (counter column_index row_index total_columns total_rows : Int)
    (fs : FillingStrategy) : Int × Int :=
  match fs with
  | FillingStrategy.BY_ROW =>
      (counter % total_columns + 1, pyIntDiv counter total_columns + 1)
  | FillingStrategy.BY_COLUMN =>
      (pyIntDiv counter total_rows + 1, counter % total_rows + 1)
  | FillingStrategy.EXACT => (column_index, row_index)

/-- The auto-fit loop of `_create_bulk_move`: one record per item, with the
counter incremented after each item. -/
def autoFitRecords (grid_id column_index row_index total_columns total_rows : Int)
    (fs : FillingStrategy) : List Id → Int → Except String (List BulkRecord)
  | [], _ => Except.ok []
  | ss_id :: rest, counter =>
      match get_type ss_id with
      | Except.error e => Except.error e
      | Except.ok t =>
          match autoFitRecords grid_id column_index row_index total_columns
              total_rows fs rest (counter + 1) with
          | Except.error e => Except.error e
          | Except.ok recs =>
              Except.ok (BulkRecord.mk t ss_id.id [grid_id]
                (some (coordOf counter column_index row_index total_columns
                  total_rows fs)) :: recs)

/-- The EXACT branch of `_create_bulk_move`: items zipped 1:1 with the
supplied locations. -/
def exactRecords (grid_id : Int) : List (Id × GridLocation) → Except String (List BulkRecord)
  | [] => Except.ok []
  | (item, coord) :: rest =>
      match get_type item with
      | Except.error e => Except.error e
      | Except.ok t =>
          match exactRecords grid_id rest with
          | Except.error e => Except.error e
          | Except.ok recs =>
              Except.ok (BulkRecord.mk t item.id [grid_id]
                (some (coord.x, coord.y)) :: recs)

/-- `InventoryClient._create_bulk_move`: dispatches on the filling strategy —
the EXACT branch zips items with `gp.locations` (an `AutoFit` placement
carrying EXACT would hit a missing `locations` attribute), the others compute
the start index and run the counter loop. -/
def _create_bulk_move (grid_id : Id) (gp : GridPlacement) : Except String BulkPost :=
  match gp with
  | GridPlacement.byLocation locations items =>
      match exactRecords grid_id.id (items.zip locations) with
      | Except.error e => Except.error e
      | Except.ok recs => Except.ok (BulkPost.mk "MOVE" recs)
  | GridPlacement.autoFit _ _ _ _ _ FillingStrategy.EXACT =>
      Except.error "AttributeError: no locations on an AutoFit placement"
  | GridPlacement.autoFit ci ri tc tr items fs =>
      match _calculate_start_index ci ri tc tr fs with
      | Except.error e => Except.error e
      | Except.ok counter =>
          match autoFitRecords grid_id.id ci ri tc tr fs items counter with
          | Except.error e => Except.error e
          | Except.ok recs => Except.ok (BulkPost.mk "MOVE" recs)

lemma lin_round (b q r : Int) (h0 : 0 ≤ r) (h1 : r < b) :
    (r + b * q) % b = r ∧ (r + b * q) / b = q := by
  constructor
  · rw [Int.add_mul_emod_self_left, Int.emod_eq_of_lt h0 h1]
  · rw [Int.add_mul_ediv_left r q (by omega : b ≠ 0),
      Int.ediv_eq_zero_of_lt h0 h1, zero_add]

/-- The start index computed for a valid start position inverts to exactly
that position under the same strategy, provided the grid is small enough
(cell count at most `2^52`) that the float division is exact. -/
lemma coordOf_start (col row tc tr : Int) (fs : FillingStrategy)
    (hc1 : 1 ≤ col) (hc2 : col ≤ tc) (hr1 : 1 ≤ row) (hr2 : row ≤ tr)
    (hcell : tc * tr ≤ 2 ^ 52) :
    ∀ s, _calculate_start_index col row tc tr fs = Except.ok s →
      fs ≠ FillingStrategy.EXACT → coordOf s col row tc tr fs = (col, row) := by
  intro s hs hfs
  have h1 : ¬(col < 1 ∨ row < 1) := by omega
  have h2 : ¬(col > tc ∨ row > tr) := by omega
  unfold _calculate_start_index at hs
  rw [if_neg h1, if_neg h2] at hs
  cases fs with
  | EXACT => exact absurd rfl hfs
  | BY_ROW =>
    have hsv : s = (row - 1) * tc + col - 1 := (Except.ok.inj hs).symm
    have hs0 : 0 ≤ s := by
      have := mul_nonneg (by omega : (0:Int) ≤ row - 1) (by omega : (0:Int) ≤ tc)
      omega
    have hsb : s < 2 ^ 52 := by
      have hstep : (row - 1) * tc ≤ (tr - 1) * tc :=
        mul_le_mul_of_nonneg_right (by omega) (by omega)
      have hid : (tr - 1) * tc + tc = tc * tr := by ring
      omega
    have hdiv : pyIntDiv s tc = s / tc := pyIntDiv_nonneg_eq s tc hs0 (by omega) hsb
    have hrw : s = (col - 1) + tc * (row - 1) := by rw [hsv]; ring
    obtain ⟨hm, hd⟩ := lin_round tc (row - 1) (col - 1) (by omega) (by omega)
    show (s % tc + 1, pyIntDiv s tc + 1) = (col, row)
    rw [hdiv, hrw, hm, hd]
    simp only [Prod.mk.injEq]
    omega
  | BY_COLUMN =>
    have hsv : s = (col - 1) * tr + row - 1 := (Except.ok.inj hs).symm
    have hs0 : 0 ≤ s := by
      have := mul_nonneg (by omega : (0:Int) ≤ col - 1) (by omega : (0:Int) ≤ tr)
      omega
    have hsb : s < 2 ^ 52 := by
      have hstep : (col - 1) * tr ≤ (tc - 1) * tr :=
        mul_le_mul_of_nonneg_right (by omega) (by omega)
      have hid : (tc - 1) * tr + tr = tc * tr := by ring
      omega
    have hdiv : pyIntDiv s tr = s / tr := pyIntDiv_nonneg_eq s tr hs0 (by omega) hsb
    have hrw : s = (row - 1) + tr * (col - 1) := by rw [hsv]; ring
    obtain ⟨hm, hd⟩ := lin_round tr (col - 1) (row - 1) (by omega) (by omega)
    show (pyIntDiv s tr + 1, s % tr + 1) = (col, row)
    rw [hdiv, hrw, hm, hd]
    simp only [Prod.mk.injEq]
    omega

/-- C1 (counterexample) -- The round-trip fails at the valid start position
col=3, row=2^52+1 in a 3-column, 2^52+1-row grid under BY_ROW: the start
index is 3·2^52+2, whose float quotient by 3 rounds up, so the computed
coordinate is (3, 2^52+2), one row past (col, row). -/
theorem round_trip_float_counterexample :
    _calculate_start_index 3 (2 ^ 52 + 1) 3 (2 ^ 52 + 1) FillingStrategy.BY_ROW
      = Except.ok (3 * 2 ^ 52 + 2) ∧
    coordOf (3 * 2 ^ 52 + 2) 3 (2 ^ 52 + 1) 3 (2 ^ 52 + 1) FillingStrategy.BY_ROW
      = (3, 2 ^ 52 + 2) ∧
    ((3 : Int), (2 ^ 52 + 2 : Int)) ≠ (3, 2 ^ 52 + 1) := by
  refine ⟨?_, ?_, by norm_num⟩
  · norm_num [_calculate_start_index]
  · have hpd : pyIntDiv (3 * 2 ^ 52 + 2) 3 = 2 ^ 52 + 1 := by decide
    show ((3 * 2 ^ 52 + 2 : Int) % 3 + 1, pyIntDiv (3 * 2 ^ 52 + 2) 3 + 1)
      = (3, 2 ^ 52 + 2)
    rw [hpd]
    simp only [Prod.mk.injEq]
    omega

/-- C1 (amended) -- Round-trip of grid addressing for grids whose cell count
is at most `2^52` (so the truncated float division is exact): for a valid
start position and either auto-fit strategy, the coordinate computed from the
start index is exactly (col, row); hence the first record of the bulk move
built from an auto-fit placement starting at (col, row) gets parentLocation
(coordX=col, coordY=row). -/
theorem first_record_round_trip (col row tc tr : Int) (fs : FillingStrategy)
    (hc1 : 1 ≤ col) (hc2 : col ≤ tc) (hr1 : 1 ≤ row) (hr2 : row ≤ tr)
    (hcell : tc * tr ≤ 2 ^ 52)
    (hfs : fs = FillingStrategy.BY_ROW ∨ fs = FillingStrategy.BY_COLUMN) :
    (∀ s, _calculate_start_index col row tc tr fs = Except.ok s →
      coordOf s col row tc tr fs = (col, row)) ∧
    (∀ (gid i0 : Id) (rest : List Id) (post : BulkPost),
      _create_bulk_move gid (GridPlacement.autoFit col row tc tr (i0 :: rest) fs)
        = Except.ok post →
      ∃ r0 rrest, post.records = r0 :: rrest ∧
        r0.parentLocation = some (col, row)) := by
  have hne : fs ≠ FillingStrategy.EXACT := by
    rcases hfs with h | h <;> rw [h] <;> intro hx <;> cases hx
  refine ⟨fun s hs => coordOf_start col row tc tr fs hc1 hc2 hr1 hr2 hcell s hs hne, ?_⟩
  intro gid i0 rest post h
  have hbm : _create_bulk_move gid (GridPlacement.autoFit col row tc tr (i0 :: rest) fs)
      = match _calculate_start_index col row tc tr fs with
        | Except.error e => Except.error e
        | Except.ok counter =>
            match autoFitRecords gid.id col row tc tr fs (i0 :: rest) counter with
            | Except.error e => Except.error e
            | Except.ok recs => Except.ok (BulkPost.mk "MOVE" recs) := by
    rcases hfs with hf | hf <;> rw [hf] <;> rfl
  rw [hbm] at h
  split at h
  · cases h
  · rename_i s hs
    split at h
    · cases h
    · rename_i recs hrecs
      rw [autoFitRecords] at hrecs
      split at hrecs
      · cases hrecs
      · rename_i t ht
        split at hrecs
        · cases hrecs
        · rename_i recs2 hrecs2
          refine ⟨BulkRecord.mk t i0.id [gid.id]
            (some (coordOf s col row tc tr fs)), recs2, ?_, ?_⟩
          · have h1 := Except.ok.inj h
            have h2 := Except.ok.inj hrecs
            rw [← h1, ← h2]
          · simp only [coordOf_start col row tc tr fs hc1 hc2 hr1 hr2 hcell s hs hne]

/-- Witness for `first_record_round_trip` at (3, 2) in a 5×4 grid, BY_ROW. -/
theorem first_record_round_trip_witness :
    coordOf 7 3 2 5 4 FillingStrategy.BY_ROW = (3, 2) :=
  (first_record_round_trip 3 2 5 4 FillingStrategy.BY_ROW (by norm_num) (by norm_num)
    (by norm_num) (by norm_num) (by norm_num) (Or.inl rfl)).1 7 (by rfl)

/-- The `target_container_id` argument of `add_items_to_grid_container`:
either a `GridContainer` snapshot object or one of the plain `Id` inputs
(int, string, dict). -/
inductive GridTarget
  | snapshot (d : ContainerData)
  | value (v : IdValue)
deriving DecidableEq, Repr

/-- The tail of `add_items_to_grid_container` after the capacity branch:
`Id(target_container_id)`, the `is_container(maybe=True)` type check, and the
bulk payload built by `_create_bulk_move` (an `ok` result is the request that
is posted to `/bulk`). -/
def gridMoveRequest (v : IdValue) (gp : GridPlacement) : Except String BulkPost :=
  match idOfValue v with
  | Except.error e => Except.error e
  | Except.ok id_target =>
      if is_container id_target true then _create_bulk_move id_target gp
      else Except.error "Target must be a container"

/-- `InventoryClient.add_items_to_grid_container`: when the target is a
`GridContainer` object, its `free()` count is compared with the item count
first (the error message interpolates the snapshot's `globalId`); otherwise
the request proceeds with no capacity check. -/
def add_items_to_grid_container (target : GridTarget) (gp : GridPlacement) :
    Except String BulkPost :=
  match target with
  | GridTarget.snapshot d =>
      match free d with
      | Except.error e => Except.error e
      | Except.ok f =>
          if f < (GridPlacement.items gp).length then
            match dget d.globalId "globalId" with
            | Except.error e => Except.error e
            | Except.ok g => Except.error ("not enough space in " ++ g)
          else gridMoveRequest (IdValue.IVContainer d) gp
  | GridTarget.value v => gridMoveRequest v gp

/-- C4 (counterexample) -- A bare-string target whose type code is
definitively not a container is rejected before any request is built, so with
a bare id or string the bulk request is NOT always submitted. -/
theorem add_items_bare_string_not_submitted :
    add_items_to_grid_container (GridTarget.value (IdValue.IVStr "SS5"))
      (GridPlacement.byLocation [GridLocation.mk 1 1] [Id.mk 7 (some "SS")])
      = Except.error "Target must be a container" := rfl

/-- C4 (amended) -- The capacity pre-check runs exactly when the target is a
`GridContainer` snapshot: then an insufficient free count fails before any
request is built; with a bare id/string no capacity check occurs, and the
request is submitted whenever the id resolves to a possible container
(unknown type code or IC) — a definitively non-container target instead fails
with a type error. -/
theorem add_items_capacity_check :
    (∀ (d : ContainerData) (gp : GridPlacement) (f : Int),
      free d = Except.ok f → f < ((GridPlacement.items gp).length : Int) →
      ∀ post, add_items_to_grid_container (GridTarget.snapshot d) gp
        ≠ Except.ok post) ∧
    (∀ (v : IdValue) (gp : GridPlacement) (i : Id),
      idOfValue v = Except.ok i → is_container i true = true →
      add_items_to_grid_container (GridTarget.value v) gp
        = _create_bulk_move i gp) ∧
    (∀ (v : IdValue) (gp : GridPlacement) (i : Id),
      idOfValue v = Except.ok i → is_container i true = false →
      add_items_to_grid_container (GridTarget.value v) gp
        = Except.error "Target must be a container") := by
  have hval : ∀ (v : IdValue) (gp : GridPlacement),
      add_items_to_grid_container (GridTarget.value v) gp = gridMoveRequest v gp :=
    fun v gp => rfl
  have hsnap : ∀ (d : ContainerData) (gp : GridPlacement) (f : Int),
      free d = Except.ok f →
      add_items_to_grid_container (GridTarget.snapshot d) gp
        = if f < ((GridPlacement.items gp).length : Int) then
            (match dget d.globalId "globalId" with
             | Except.error e => Except.error e
             | Except.ok g => Except.error ("not enough space in " ++ g))
          else gridMoveRequest (IdValue.IVContainer d) gp := by
    intro d gp f hf
    show (match free d with
      | Except.error e => Except.error e
      | Except.ok f =>
          if f < ((GridPlacement.items gp).length : Int) then
            (match dget d.globalId "globalId" with
             | Except.error e => Except.error e
             | Except.ok g => Except.error ("not enough space in " ++ g))
          else gridMoveRequest (IdValue.IVContainer d) gp) = _
    rw [hf]
  have hreq : ∀ (v : IdValue) (gp : GridPlacement) (i : Id),
      idOfValue v = Except.ok i →
      gridMoveRequest v gp
        = if is_container i true then _create_bulk_move i gp
          else Except.error "Target must be a container" := by
    intro v gp i hi
    unfold gridMoveRequest
    rw [hi]
  refine ⟨?_, ?_, ?_⟩
  · intro d gp f hf hlt post hx
    rw [hsnap d gp f hf, if_pos hlt] at hx
    split at hx
    · cases hx
    · cases hx
  · intro v gp i hi hic
    rw [hval, hreq v gp i hi, if_pos hic]
  · intro v gp i hi hic
    rw [hval, hreq v gp i hi, if_neg (by rw [hic]; decide)]

/-- Witness for `add_items_capacity_check`: an IC-prefixed string target is
submitted (the payload equals the bulk move), and an over-full snapshot is
rejected. -/
theorem add_items_capacity_check_witness :
    add_items_to_grid_container (GridTarget.value (IdValue.IVStr "IC9"))
      (GridPlacement.byLocation [GridLocation.mk 1 1] [Id.mk 7 (some "SS")])
      = _create_bulk_move (Id.mk 9 (some "IC"))
          (GridPlacement.byLocation [GridLocation.mk 1 1] [Id.mk 7 (some "SS")]) ∧
    ∀ post, add_items_to_grid_container
        (GridTarget.snapshot (ContainerData.mk (some "GRID") (some 1) (some "IC1")
          none (some true) (some true) (some (GridLayout.mk 1 1))
          (some [LocationData.mk 1 1])))
        (GridPlacement.byLocation [GridLocation.mk 1 1] [Id.mk 7 (some "SS")])
      ≠ Except.ok post :=
  ⟨add_items_capacity_check.2.1 (IdValue.IVStr "IC9")
      (GridPlacement.byLocation [GridLocation.mk 1 1] [Id.mk 7 (some "SS")])
      (Id.mk 9 (some "IC")) (by rfl) (by rfl),
   add_items_capacity_check.1 _ _ 0 (by rfl) (by decide)⟩

/-- One `get_job_status` response, restricted to the fields `download_export`
reads: the status string, the `result` payload used in failure diagnostics,
and the `enclosure` link followed on completion. -/
structure JobStatusResponse where
  status : String
  result : String
  enclosureLink : String
deriving DecidableEq, Repr

/-- How `download_export` ends: returning a downloaded file path, or raising
an `ApiError` with a message. -/
inductive ExportOutcome
  | downloaded (path : String)
  | apiError (msg : String)
deriving DecidableEq, Repr

/-- The `while True` polling loop of `ELNClient.download_export`, as a
function of the successive `get_job_status` responses: COMPLETED downloads
and returns, FAILED and ABANDONED raise with the server diagnostic, the three
in-progress statuses sleep and poll again, anything else raises an
unknown-status error. `none` means the given response sequence ran out while
the loop would still be polling. -/
def download_export_poll : List JobStatusResponse → Option ExportOutcome
  | [] => none
  | r :: rest =>
      if r.status == "COMPLETED" then
        some (ExportOutcome.downloaded r.enclosureLink)
      else if r.status == "FAILED" then
        some (ExportOutcome.apiError ("Export job failed: " ++ r.result))
      else if r.status == "ABANDONED" then
        some (ExportOutcome.apiError ("Export job was abandoned: " ++ r.result))
      else if r.status == "RUNNING" || r.status == "STARTING"
          || r.status == "STARTED" then
        download_export_poll rest
      else
        some (ExportOutcome.apiError ("Unknown job status: " ++ r.status))

/-- C9 -- The polling loop is the claimed state machine: in-progress statuses
poll again, COMPLETED terminates with the downloaded result, FAILED and
ABANDONED terminate raising the server diagnostic, and any other status
terminates raising an unknown-status error; the five cases are exhaustive. -/
theorem download_export_state_machine (r : JobStatusResponse)
    (rest : List JobStatusResponse) :
    ((r.status = "STARTING" ∨ r.status = "STARTED" ∨ r.status = "RUNNING") →
      download_export_poll (r :: rest) = download_export_poll rest) ∧
    (r.status = "COMPLETED" →
      download_export_poll (r :: rest)
        = some (ExportOutcome.downloaded r.enclosureLink)) ∧
    (r.status = "FAILED" →
      download_export_poll (r :: rest)
        = some (ExportOutcome.apiError ("Export job failed: " ++ r.result))) ∧
    (r.status = "ABANDONED" →
      download_export_poll (r :: rest)
        = some (ExportOutcome.apiError ("Export job was abandoned: " ++ r.result))) ∧
    (r.status ∉ ["STARTING", "STARTED", "RUNNING", "COMPLETED", "FAILED", "ABANDONED"] →
      download_export_poll (r :: rest)
        = some (ExportOutcome.apiError ("Unknown job status: " ++ r.status))) := by
  obtain ⟨st, res, link⟩ := r
  simp only [download_export_poll]
  refine ⟨?_, ?_, ?_, ?_, ?_⟩
  · rintro (h | h | h) <;> subst h <;> rfl
  · intro h; subst h; rfl
  · intro h; subst h; rfl
  · intro h; subst h; rfl
  · intro h
    simp only [List.mem_cons, List.not_mem_nil, or_false] at h
    push_neg at h
    obtain ⟨h1, h2, h3, h4, h5, h6⟩ := h
    simp [h1, h2, h3, h4, h5, h6]

/-- Witness for `download_export_state_machine`: a STARTING response polls
again, so [STARTING, COMPLETED] resolves like [COMPLETED]. -/
theorem download_export_state_machine_witness :
    download_export_poll
        [JobStatusResponse.mk "STARTING" "" "", JobStatusResponse.mk "COMPLETED" "" "f.zip"]
      = download_export_poll [JobStatusResponse.mk "COMPLETED" "" "f.zip"] :=
  (download_export_state_machine (JobStatusResponse.mk "STARTING" "" "")
    [JobStatusResponse.mk "COMPLETED" "" "f.zip"]).1 (Or.inl rfl)

end RSpace
